import Mathlib

/-!
Verification development for the orders-service resilience core of the
`microservices-node-lesson` repository: the event-populated user cache, the
AMQP consumer, the circuit-breaker-guarded admission decision, and the order
lifecycle (create / cancel) with its event emissions.

The definitions below are a shallow embedding of
`src/services/orders-service/src/app.js` (the updated, Prisma-backed service;
the in-memory `index.js` variant agrees on every property treated here except
where noted). JavaScript numbers are modelled as `Int` (no request in this
service inspects fractional parts), user identities as `String` (they are
nanoid/cuid strings produced by the users-service), and the JSON
stringify/parse round-trip on order items as the identity.
-/

/-- JS-like values, as far as the orders-service request handler inspects
them: truthiness, `Array.isArray`, and `typeof x === 'number'`. Array
elements and object contents are opaque to this core and carried through. -/
inductive JsVal : Type where
  | vUndef : JsVal
  | vNull : JsVal
  | vBool (b : Bool) : JsVal
  | vNum (n : Int) : JsVal
  | vStr (s : String) : JsVal
  | vArr (xs : List JsVal) : JsVal
  | vObj : JsVal

/-- JavaScript truthiness of the modelled values (`!userId` in the handler). -/
def JsVal.truthy : JsVal → Bool
  | .vUndef => false
  | .vNull => false
  | .vBool b => b
  | .vNum n => n != 0
  | .vStr s => s != ""
  | .vArr _ => true
  | .vObj => true

/-- `Array.isArray(x)`. -/
def JsVal.isArray : JsVal → Bool
  | .vArr _ => true
  | _ => false

/-- `typeof x === 'number'`. -/
def JsVal.isNumber : JsVal → Bool
  | .vNum _ => true
  | _ => false

/-- A decoded user-registry payload: the `id` the consumer keys the cache by,
plus the rest of the snapshot, opaque to this service. -/
structure UserSnapshot where
  id : String
  data : JsVal

/-- The in-memory `userCache` (`const userCache = new Map()`), as the lookup
function it induces: `userCache.get(k)`. -/
def Cache : Type := String → Option UserSnapshot

/-- The empty cache (`new Map()`). -/
def emptyCache : Cache := fun _ => none

/-- `userCache.set(k, u)`. -/
def cacheSet (c : Cache) (k : String) (u : UserSnapshot) : Cache :=
  fun k' => if k' = k then some u else c k'

/-- `userCache.get(k)` / `EventCache.lookup`. -/
def cacheLookup (c : Cache) (k : String) : Option UserSnapshot := c k

/-- The routing key of a received message (`msg.fields.routingKey`). -/
inductive RoutingKey : Type where
  | userCreated : RoutingKey
  | userUpdated : RoutingKey
  | other (s : String) : RoutingKey
deriving DecidableEq

/-- A message delivered by the broker. `payload` is the outcome of
`JSON.parse(msg.content.toString())`: `none` when the payload is malformed and
the parse throws. -/
structure Message where
  routingKey : RoutingKey
  payload : Option UserSnapshot

/-- The consumer's disposition of a message: `amqp.ch.ack(msg)` or
`amqp.ch.nack(msg, false, false)` (reject without requeue). -/
inductive Ack : Type where
  | acked : Ack
  | nackedNoRequeue : Ack
deriving DecidableEq

/-- The `amqp.ch.consume` callback of `app.js` lines 52-68: parse the payload
(a throw lands in the catch, which nacks without requeue); on a user-created
or user-updated routing key, overwrite the cache entry for `user.id`; ack. -/
def consume (c : Cache) (msg : Message) : Cache × Ack :=
  match msg.payload with
  | none => (c, .nackedNoRequeue)
  | some user =>
    if msg.routingKey = .userCreated ∨ msg.routingKey = .userUpdated then
      (cacheSet c user.id user, .acked)
    else
      (c, .acked)

/-- The cache after the consumer processes one message. -/
def consumeCache (c : Cache) (msg : Message) : Cache := (consume c msg).1

/-- The cache after the consumer processes a sequence of messages in order. -/
def consumeAll (c : Cache) (msgs : List Message) : Cache :=
  match msgs with
  | [] => c
  | m :: ms => consumeAll (consumeCache c m) ms

/-- The snapshot a single message applies for user id `uid`: its payload, when
it decodes, carries a recognised routing key, and carries that id. -/
def appliedEvent (uid : String) (msg : Message) : Option UserSnapshot :=
  match msg.payload with
  | none => none
  | some user =>
    if (msg.routingKey = .userCreated ∨ msg.routingKey = .userUpdated) ∧ user.id = uid then
      some user
    else
      none

/-- The payload of the last applied create/update event for `uid` in a
message sequence (later messages win). -/
def lastApplied (msgs : List Message) (uid : String) : Option UserSnapshot :=
  match msgs with
  | [] => none
  | m :: ms =>
    match lastApplied ms uid with
    | some u => some u
    | none => appliedEvent uid m

theorem consumeCache_lookup (c : Cache) (msg : Message) (uid : String) :
    cacheLookup (consumeCache c msg) uid =
      match appliedEvent uid msg with
      | some u => some u
      | none => cacheLookup c uid := by
  unfold consumeCache consume appliedEvent
  match h : msg.payload with
  | none => simp
  | some user =>
    simp only
    by_cases hk : msg.routingKey = RoutingKey.userCreated ∨ msg.routingKey = RoutingKey.userUpdated
    · by_cases hid : user.id = uid
      · simp [hk, hid, cacheLookup, cacheSet]
      · have : ¬ ((msg.routingKey = RoutingKey.userCreated ∨
            msg.routingKey = RoutingKey.userUpdated) ∧ user.id = uid) := by
          intro hcontra; exact hid hcontra.2
        have hid' : ¬ uid = user.id := fun hh => hid hh.symm
        simp [hk, this, cacheLookup, cacheSet, hid', hid]
    · have : ¬ ((msg.routingKey = RoutingKey.userCreated ∨
          msg.routingKey = RoutingKey.userUpdated) ∧ user.id = uid) := by
        intro hcontra; exact hk hcontra.1
      simp [hk, this]

theorem consumeAll_lookup (msgs : List Message) (c : Cache) (uid : String) :
    cacheLookup (consumeAll c msgs) uid =
      match lastApplied msgs uid with
      | some u => some u
      | none => cacheLookup c uid := by
  induction msgs generalizing c with
  | nil => rfl
  | cons m ms ih =>
    show cacheLookup (consumeAll (consumeCache c m) ms) uid = _
    rw [ih]
    show (match lastApplied ms uid with
          | some u => some u
          | none => cacheLookup (consumeCache c m) uid) = _
    cases hms : lastApplied ms uid with
    | some u => simp [lastApplied, hms]
    | none =>
      rw [consumeCache_lookup]
      simp [lastApplied, hms]

/-- Outcome of `await breaker.fire(userId)`: a resolved promise, or a thrown
error whose message the handler inspects (`'CIRCUIT_OPEN'` from the breaker's
fallback when the circuit is open; otherwise the upstream-failure or timeout
message). -/
inductive LiveOutcome : Type where
  | ok : LiveOutcome
  | err (msg : String) : LiveOutcome

/-- The admission decision of `app.post('/')` lines 188-197: live check
success admits; on failure, a cache hit for the userId admits, a cache miss
rejects 503 with the handler's error message. -/
inductive Verdict : Type where
  | accept : Verdict
  | reject (httpStatus : Nat) (error : String) : Verdict

/-- `userCache.has(userId)` where `userId` is the raw request-body value:
snapshot keys are the string ids carried by registry events, so a non-string
value never hits. -/
def cacheHasVal (c : Cache) (v : JsVal) : Bool :=
  match v with
  | .vStr s => (c s).isSome
  | _ => false

/-- Lines 188-197 of `app.js`: `try { await breaker.fire(userId) } catch
(err) { if (!userCache.has(userId)) return 503 ... }`. -/
def validateUser (live : LiveOutcome) (cache : Cache) (userId : JsVal) : Verdict :=
  match live with
  | .ok => .accept
  | .err msg =>
    if cacheHasVal cache userId then .accept
    else .reject (if msg = "CIRCUIT_OPEN" then 503 else 503)
      "users-service indisponível e usuário não encontrado no cache"

/-- A persisted order row. `items` is stored stringified and parsed back
before publishing/returning; the round-trip is modelled as the identity, so
the field holds the decoded value. Timestamps are Prisma's `createdAt` /
`updatedAt`, modelled as abstract instants. -/
structure Order where
  id : String
  userId : JsVal
  items : JsVal
  total : JsVal
  status : String
  createdAt : Nat
  updatedAt : Nat

/-- The order table, as the lookup `prisma.order.findUnique`-style function
it induces. -/
def Store : Type := String → Option Order

/-- The empty order table. -/
def emptyStore : Store := fun _ => none

/-- Writing one row. -/
def storeSet (s : Store) (k : String) (o : Order) : Store :=
  fun k' => if k' = k then some o else s k'

/-- An event published to the exchange by this service: `order.created`
carries the full order, `order.cancelled` carries `{orderId, status:
'cancelled'}`. -/
inductive BusEvent : Type where
  | orderCreated (o : Order) : BusEvent
  | orderCancelled (orderId : String) : BusEvent

/-- Environment of one `POST /` request: the breaker outcome, whether
`amqp?.ch` is non-null, whether `ch.publish` throws, whether the Prisma call
succeeds (duplicate-id aside), and the current instant. -/
structure CreateEnv where
  live : LiveOutcome
  amqpConnected : Bool
  publishThrows : Bool
  dbOk : Bool
  now : Nat

/-- The request body fields the handler destructures (`req.body || {}`). -/
structure OrderReq where
  userId : JsVal
  items : JsVal
  total : JsVal

/-- Observable outcome of one `POST /` request: HTTP status, whether
`breaker.fire` was invoked, the resulting table, the persisted row (if any),
and the events that reached the broker. -/
structure CreateResult where
  httpStatus : Nat
  breakerFired : Bool
  store : Store
  created : Option Order
  published : List BusEvent

/-- `app.post('/')` of `app.js` lines 181-234. Body validation rejects 400
before the breaker is fired; a reject verdict returns before any persistence;
`prisma.order.create` fails (500) on a duplicate id or a database fault, and
then nothing is published; otherwise the row is written, the `order.created`
event is published when the channel is up (a publish throw is caught and
swallowed), and 201 returns the order. -/
def createOrder (env : CreateEnv) (cache : Cache) (store : Store)
    (req : OrderReq) (newId : String) : CreateResult :=
  if ¬ (req.userId.truthy && req.items.isArray && req.total.isNumber) then
    { httpStatus := 400, breakerFired := false, store := store,
      created := none, published := [] }
  else
    match validateUser env.live cache req.userId with
    | .reject st _ =>
      { httpStatus := st, breakerFired := true, store := store,
        created := none, published := [] }
    | .accept =>
      if env.dbOk && (store newId).isNone then
        let order : Order :=
          { id := newId, userId := req.userId, items := req.items,
            total := req.total, status := "created",
            createdAt := env.now, updatedAt := env.now }
        let pubs :=
          if env.amqpConnected && !env.publishThrows then
            [BusEvent.orderCreated order]
          else []
        { httpStatus := 201, breakerFired := true,
          store := storeSet store newId order,
          created := some order, published := pubs }
      else
        { httpStatus := 500, breakerFired := true, store := store,
          created := none, published := [] }

/-- Environment of one `POST /orders/:id/cancel` request. -/
structure CancelEnv where
  amqpConnected : Bool
  publishThrows : Bool
  dbOk : Bool
  now : Nat

/-- Observable outcome of one cancel request. -/
structure CancelResult where
  httpStatus : Nat
  store : Store
  body : Option Order
  published : List BusEvent

/-- `app.post('/orders/:id/cancel')` of `app.js` lines 142-178:
`prisma.order.update` sets `status: 'cancelled'` and bumps `updatedAt`; a
missing row throws P2025, mapped to 404 with no mutation and no publication;
any other database fault maps to 500; on success the `order.cancelled` event
is published when the channel is up (a publish throw is caught and swallowed)
and the updated order is returned. -/
def cancelOrder (env : CancelEnv) (store : Store) (orderId : String) :
    CancelResult :=
  if env.dbOk then
    match store orderId with
    | none =>
      { httpStatus := 404, store := store, body := none, published := [] }
    | some o =>
      let o' : Order := { o with status := "cancelled", updatedAt := env.now }
      let pubs :=
        if env.amqpConnected && !env.publishThrows then
          [BusEvent.orderCancelled orderId]
        else []
      { httpStatus := 200, store := storeSet store orderId o',
        body := some o', published := pubs }
  else
    { httpStatus := 500, store := store, body := none, published := [] }

/-- One request hitting the order store. -/
inductive OrderOp : Type where
  | createOp (env : CreateEnv) (cache : Cache) (req : OrderReq) (newId : String) : OrderOp
  | cancelOp (env : CancelEnv) (orderId : String) : OrderOp

/-- The store after one request. -/
def stepStore (store : Store) : OrderOp → Store
  | .createOp env cache req newId => (createOrder env cache store req newId).store
  | .cancelOp env orderId => (cancelOrder env store orderId).store

/-- The store after a sequence of requests. -/
def runOps (store : Store) (ops : List OrderOp) : Store :=
  match ops with
  | [] => store
  | op :: rest => runOps (stepStore store op) rest

/-- The options object passed to `opossum` in `app.js` lines 128-132. The
source sets `timeout` (HTTP_TIMEOUT_MS, default 2000), an
`errorThresholdPercentage` of 50 and a `resetTimeout` of 10000; it sets no
`volumeThreshold` key, recorded here as `none`. -/
structure BreakerOptions where
  timeout : Nat
  errorThresholdPercentage : Nat
  resetTimeout : Nat
  volumeThreshold : Option Nat

/-- `circuitBreakerOptions` as defined in the source (default environment). -/
def circuitBreakerOptions : BreakerOptions :=
  { timeout := 2000, errorThresholdPercentage := 50, resetTimeout := 10000,
    volumeThreshold := none }

/-- The circuit states of the breaker. -/
inductive CircuitState : Type where
  | closed : CircuitState
  | opened : CircuitState
  | halfOpen : CircuitState
deriving DecidableEq

/-- Breaker bookkeeping: the current state and the trailing window of call
outcomes (`true` = the call failed or timed out). -/
structure BreakerState where
  state : CircuitState
  window : List Bool

/-- The breaker before any call. -/
def initBreaker : BreakerState := { state := .closed, window := [] }

/-- Failure percentage over a trailing window of call outcomes. -/
def failurePct (w : List Bool) : Nat :=
  if w.length = 0 then 0 else (100 * (w.filter (fun b => b)).length) / w.length

/-- The volume floor the breaker actually applies: the configured
`volumeThreshold` when present, else the library default of 0. -/
def effectiveVolumeThreshold (o : BreakerOptions) : Nat :=
  o.volumeThreshold.getD 0

/-- Modelled from the spec: the closed-state failure accounting of the
circuit breaker wrapping `fetchUserAction`. The breaker's mechanism lives in
the `opossum` dependency, outside this repository's sources; per the spec the
breaker records each call outcome in its trailing window and transitions
closed→open when the failure percentage meets or exceeds
`errorThresholdPercentage` and the call volume has reached the volume floor.
The floor applied is `effectiveVolumeThreshold` of the source's options —
0, since `circuitBreakerOptions` configures no `volumeThreshold`. The
time-driven open→half-open→closed transitions are outside this relation. -/
def recordCall (o : BreakerOptions) (b : BreakerState) (failed : Bool) :
    BreakerState :=
  match b.state with
  | .closed =>
    let w := b.window ++ [failed]
    if effectiveVolumeThreshold o ≤ w.length ∧
        o.errorThresholdPercentage ≤ failurePct w then
      { state := .opened, window := w }
    else
      { state := .closed, window := w }
  | s => { state := s, window := b.window }

/-- Sample snapshots, cache contents and environments used by the concrete
witnesses below. -/
def uAna : UserSnapshot := { id := "u1", data := .vStr "Ana" }

/-- A later snapshot for the same user id. -/
def uAnaV2 : UserSnapshot := { id := "u1", data := .vStr "Ana Maria" }

/-- A cache holding exactly user `u1`. -/
def sampleCache : Cache := cacheSet emptyCache "u1" uAna

/-- A `user.created` message carrying `uAna`. -/
def msgCreate : Message := { routingKey := .userCreated, payload := some uAna }

/-- A `user.updated` message carrying `uAnaV2`. -/
def msgUpdate : Message := { routingKey := .userUpdated, payload := some uAnaV2 }

/-- A delivery sequence in which the update event is redelivered once. -/
def sampleMsgs : List Message := [msgCreate, msgUpdate, msgUpdate]

/-- C1: for every order-creation request, a successful live user check yields
Admit; a failed live check with a cache hit for the userId yields Admit; a
failed live check with a cache miss yields Reject with status 503 and the
handler's service-unavailable reason. -/
theorem claim1_validation_orchestrator (cache : Cache) (userId : JsVal)
    (msg : String) :
    validateUser .ok cache userId = .accept
    ∧ (cacheHasVal cache userId = true →
        validateUser (.err msg) cache userId = .accept)
    ∧ (cacheHasVal cache userId = false →
        validateUser (.err msg) cache userId =
          .reject 503
            "users-service indisponível e usuário não encontrado no cache") := by
  refine ⟨rfl, ?_, ?_⟩
  · intro h; unfold validateUser; simp [h]
  · intro h; unfold validateUser; simp [h]

/-- Witness for C1 at a concrete cache: `u1` is cached, `u9` is not. -/
theorem claim1_witness :
    validateUser .ok sampleCache (.vStr "u1") = .accept
    ∧ validateUser (.err "User service returned 500") sampleCache
        (.vStr "u1") = .accept
    ∧ validateUser (.err "CIRCUIT_OPEN") sampleCache (.vStr "u9") =
        .reject 503
          "users-service indisponível e usuário não encontrado no cache" :=
  ⟨(claim1_validation_orchestrator sampleCache (.vStr "u1") "x").1,
   (claim1_validation_orchestrator sampleCache (.vStr "u1")
      "User service returned 500").2.1 rfl,
   (claim1_validation_orchestrator sampleCache (.vStr "u9")
      "CIRCUIT_OPEN").2.2 rfl⟩

/-- C2: over any finite message sequence the cached snapshot for a user id is
the payload of the last applied create/update event carrying that id, and
re-applying any individual event any number of additional times leaves the
cache unchanged (apply is idempotent). -/
theorem claim2_eventcache_last_write_wins (msgs : List Message) (uid : String)
    (c : Cache) (m : Message) :
    (∀ u : UserSnapshot, lastApplied msgs uid = some u →
        cacheLookup (consumeAll emptyCache msgs) uid = some u)
    ∧ (∀ n : Nat,
        (fun cc => consumeCache cc m)^[n] (consumeCache c m) =
          consumeCache c m) := by
  constructor
  · intro u hu
    rw [consumeAll_lookup, hu]
  · have idem : consumeCache (consumeCache c m) m = consumeCache c m := by
      funext k
      unfold consumeCache consume
      cases hp : m.payload with
      | none => rfl
      | some user =>
        by_cases hk : m.routingKey = RoutingKey.userCreated ∨
            m.routingKey = RoutingKey.userUpdated
        · by_cases hkk : k = user.id <;> simp [hk, cacheSet, hkk]
        · simp [hk]
    intro n
    induction n with
    | zero => rfl
    | succ k ih =>
      rw [Function.iterate_succ_apply, idem, ih]

/-- Witness for C2: after create, update, and a redelivered update for `u1`,
the cache holds the update's payload, and a triple re-application changes
nothing. -/
theorem claim2_witness :
    cacheLookup (consumeAll emptyCache sampleMsgs) "u1" = some uAnaV2
    ∧ (fun cc => consumeCache cc msgUpdate)^[3]
        (consumeCache emptyCache msgUpdate) =
        consumeCache emptyCache msgUpdate :=
  ⟨(claim2_eventcache_last_write_wins sampleMsgs "u1" emptyCache
      msgUpdate).1 uAnaV2 rfl,
   (claim2_eventcache_last_write_wins sampleMsgs "u1" emptyCache
      msgUpdate).2 3⟩

/-- C9: a message whose payload fails to decode is nacked without requeue and
leaves the cache untouched. -/
theorem claim9_malformed_discarded (c : Cache) (msg : Message)
    (h : msg.payload = none) :
    consume c msg = (c, .nackedNoRequeue) := by
  unfold consume
  rw [h]

/-- Witness for C9 at a concrete malformed message. -/
theorem claim9_witness :
    consume sampleCache { routingKey := .userCreated, payload := none } =
      (sampleCache, .nackedNoRequeue) :=
  claim9_malformed_discarded sampleCache
    { routingKey := .userCreated, payload := none } rfl

/-- A request body with a missing (falsy) userId. -/
def badReq : OrderReq := { userId := .vUndef, items := .vArr [], total := .vNum 150 }

/-- A benign request environment: live check succeeds, channel up, publish
and database succeed. -/
def okCreateEnv : CreateEnv :=
  { live := .ok, amqpConnected := true, publishThrows := false, dbOk := true,
    now := 7 }

/-- C10: an invalid body (falsy userId, non-array items, or non-number total)
is answered 400 before any side effect: the breaker is not fired, the store
is unchanged, nothing is persisted and nothing is published. -/
theorem claim10_invalid_body (env : CreateEnv) (cache : Cache) (store : Store)
    (req : OrderReq) (newId : String)
    (h : (req.userId.truthy && req.items.isArray && req.total.isNumber) = false) :
    createOrder env cache store req newId =
      { httpStatus := 400, breakerFired := false, store := store,
        created := none, published := [] } := by
  unfold createOrder
  simp [h]

/-- Witness for C10 at a concrete invalid body (userId undefined). -/
theorem claim10_witness :
    createOrder okCreateEnv sampleCache emptyStore badReq "o_1" =
      { httpStatus := 400, breakerFired := false, store := emptyStore,
        created := none, published := [] } :=
  claim10_invalid_body okCreateEnv sampleCache emptyStore badReq "o_1" rfl

/-- C3 counterexample: the source configures no `volumeThreshold`, so with
the library default floor of 0 the breaker transitions closed→open on a
trailing window of a single failed call — it does open on a one-call
sample, and no minimum call-volume floor is configured at all. -/
theorem claim3_counterexample :
    circuitBreakerOptions.volumeThreshold = none
    ∧ (recordCall circuitBreakerOptions initBreaker true).state = .opened
    ∧ (recordCall circuitBreakerOptions initBreaker true).window.length = 1 := by
  refine ⟨rfl, ?_, by decide⟩
  decide

/-- C3 (amended): from the closed state the breaker opens exactly when the
failure percentage over the trailing window meets or exceeds the configured
50% threshold; the volume floor it applies is 0 because the source's options
configure no `volumeThreshold`, so no minimum sample size is enforced. -/
theorem claim3_open_on_threshold_alone (b : BreakerState) (failed : Bool)
    (h : b.state = .closed) :
    ((recordCall circuitBreakerOptions b failed).state = .opened ↔
      50 ≤ failurePct (b.window ++ [failed]))
    ∧ effectiveVolumeThreshold circuitBreakerOptions = 0 := by
  obtain ⟨st, w⟩ := b
  simp only at h
  subst h
  refine ⟨?_, rfl⟩
  unfold recordCall
  by_cases hc : 50 ≤ failurePct (w ++ [failed])
  · simp [effectiveVolumeThreshold, circuitBreakerOptions, hc]
  · simp [effectiveVolumeThreshold, circuitBreakerOptions, hc]

/-- Witness for the amended C3 at the initial breaker and one failed call. -/
theorem claim3_witness :
    ((recordCall circuitBreakerOptions initBreaker true).state = .opened ↔
      50 ≤ failurePct (initBreaker.window ++ [true]))
    ∧ effectiveVolumeThreshold circuitBreakerOptions = 0 :=
  claim3_open_on_threshold_alone initBreaker true rfl

/-- A request with a negative numeric total that passes body validation. -/
def negReq : OrderReq :=
  { userId := .vStr "u1", items := .vArr [], total := .vNum (-150) }

/-- The order row the handler persists for `negReq` under `okCreateEnv`. -/
def negOrder : Order :=
  { id := "o_neg", userId := .vStr "u1", items := .vArr [],
    total := .vNum (-150), status := "created", createdAt := 7, updatedAt := 7 }

/-- C4 counterexample: a request with total −150 passes validation (the
handler checks only that total is of number type), is admitted, and is
persisted with a negative total. -/
theorem claim4_counterexample :
    (createOrder okCreateEnv emptyCache emptyStore negReq "o_neg").httpStatus = 201
    ∧ (createOrder okCreateEnv emptyCache emptyStore negReq "o_neg").created =
        some negOrder
    ∧ negOrder.total = .vNum (-150)
    ∧ (-150 : Int) < 0 := by
  refine ⟨rfl, rfl, rfl, by decide⟩

/-- C4 (amended): every order the creation operation persists has a total of
number type (any numeric value, negative included) and status `created`. -/
theorem claim4_persisted_total_is_number (env : CreateEnv) (cache : Cache)
    (store : Store) (req : OrderReq) (newId : String) (o : Order)
    (h : (createOrder env cache store req newId).created = some o) :
    o.total.isNumber = true ∧ o.status = "created" := by
  unfold createOrder at h
  split at h
  · simp at h
  · rename_i hvalid
    split at h
    · simp at h
    · split at h
      · simp only [Option.some.injEq] at h
        subst h
        refine ⟨?_, rfl⟩
        have hv : (req.userId.truthy && req.items.isArray && req.total.isNumber) = true := by
          by_contra hne
          exact hvalid (by simpa using hne)
        rw [Bool.and_eq_true, Bool.and_eq_true] at hv
        exact hv.2
      · simp at h

/-- Witness for the amended C4 at the concrete negative-total run. -/
theorem claim4_witness :
    negOrder.total.isNumber = true ∧ negOrder.status = "created" :=
  claim4_persisted_total_is_number okCreateEnv emptyCache emptyStore negReq
    "o_neg" negOrder rfl

/-- An already-cancelled order row. -/
def cancelledOrder : Order :=
  { id := "o_c", userId := .vStr "u1", items := .vArr [], total := .vNum 50,
    status := "cancelled", createdAt := 3, updatedAt := 5 }

/-- A store holding exactly the cancelled order `o_c`. -/
def cancelledStore : Store := storeSet emptyStore "o_c" cancelledOrder

/-- A benign cancel environment: channel up, publish and database succeed. -/
def okCancelEnv : CancelEnv :=
  { amqpConnected := true, publishThrows := false, dbOk := true, now := 9 }

/-- C5 counterexample: cancelling the already-cancelled order `o_c` is
neither a no-op nor an error — it returns 200, publishes a second
`order.cancelled` event, and rewrites the row's `updatedAt` (5 becomes 9). -/
theorem claim5_counterexample :
    (cancelOrder okCancelEnv cancelledStore "o_c").httpStatus = 200
    ∧ (cancelOrder okCancelEnv cancelledStore "o_c").published =
        [.orderCancelled "o_c"]
    ∧ ((cancelOrder okCancelEnv cancelledStore "o_c").store "o_c").map
        Order.updatedAt = some 9
    ∧ (cancelledStore "o_c").map Order.updatedAt = some 5 :=
  ⟨rfl, rfl, rfl, rfl⟩

theorem stepStore_preserves_cancelled (store : Store) (op : OrderOp)
    (oid : String)
    (h : (store oid).map Order.status = some "cancelled") :
    ((stepStore store op) oid).map Order.status = some "cancelled" := by
  cases op with
  | createOp env cache req newId =>
    show ((createOrder env cache store req newId).store oid).map _ = _
    unfold createOrder
    split
    · exact h
    · split
      · exact h
      · split
        · rename_i hdb
          dsimp only
          unfold storeSet
          by_cases he : oid = newId
          · exfalso
            subst he
            rw [Bool.and_eq_true] at hdb
            have hnone : store oid = none := Option.isNone_iff_eq_none.mp hdb.2
            rw [hnone] at h
            simp at h
          · simp only [if_neg he]
            exact h
        · exact h
  | cancelOp env orderId =>
    show ((cancelOrder env store orderId).store oid).map _ = _
    unfold cancelOrder
    split
    · split
      · exact h
      · dsimp only
        unfold storeSet
        by_cases he : oid = orderId
        · simp [he]
        · simp only [if_neg he]
          exact h
    · exact h

theorem runOps_preserves_cancelled (ops : List OrderOp) (store : Store)
    (oid : String)
    (h : (store oid).map Order.status = some "cancelled") :
    ((runOps store ops) oid).map Order.status = some "cancelled" := by
  induction ops generalizing store with
  | nil => exact h
  | cons op rest ih =>
    exact ih (stepStore store op) (stepStore_preserves_cancelled store op oid h)

/-- C5 (amended): the status machine is safe — once an order's status is
`cancelled` it stays `cancelled` under any further sequence of create and
cancel requests (never the reverse transition) — but cancelling an
already-cancelled order is not a no-op/error: it succeeds again with 200, the
row is rewritten still cancelled, and another `order.cancelled` event is
published whenever the channel is up. -/
theorem claim5_status_transitions (ops : List OrderOp) (store : Store)
    (oid : String) (env : CancelEnv) (o : Order)
    (h : (store oid).map Order.status = some "cancelled")
    (hdb : env.dbOk = true) (ho : store oid = some o) :
    ((runOps store ops) oid).map Order.status = some "cancelled"
    ∧ (cancelOrder env store oid).httpStatus = 200
    ∧ ((cancelOrder env store oid).store oid).map Order.status =
        some "cancelled"
    ∧ (cancelOrder env store oid).published =
        (if env.amqpConnected && !env.publishThrows then
          [BusEvent.orderCancelled oid]
        else []) := by
  refine ⟨runOps_preserves_cancelled ops store oid h, ?_, ?_, ?_⟩ <;>
  · unfold cancelOrder
    rw [hdb, ho]
    simp [storeSet]

/-- Witness for the amended C5: a re-cancel of the cancelled order `o_c`,
followed by one more cancel in the run. -/
theorem claim5_witness :
    ((runOps cancelledStore [OrderOp.cancelOp okCancelEnv "o_c"]) "o_c").map
        Order.status = some "cancelled"
    ∧ (cancelOrder okCancelEnv cancelledStore "o_c").httpStatus = 200
    ∧ ((cancelOrder okCancelEnv cancelledStore "o_c").store "o_c").map
        Order.status = some "cancelled"
    ∧ (cancelOrder okCancelEnv cancelledStore "o_c").published =
        (if okCancelEnv.amqpConnected && !okCancelEnv.publishThrows then
          [BusEvent.orderCancelled "o_c"]
        else []) :=
  claim5_status_transitions [OrderOp.cancelOp okCancelEnv "o_c"]
    cancelledStore "o_c" okCancelEnv cancelledOrder rfl rfl rfl

/-- C6: cancelling a nonexistent order id returns 404, leaves the store
untouched, and publishes nothing (provided the database is reachable — an
unreachable database is a 500, also without mutation or emission). -/
theorem claim6_cancel_notfound (env : CancelEnv) (store : Store)
    (orderId : String) (hdb : env.dbOk = true) (h : store orderId = none) :
    cancelOrder env store orderId =
      { httpStatus := 404, store := store, body := none, published := [] } := by
  unfold cancelOrder
  rw [hdb, h]
  simp

/-- Witness for C6: cancelling the absent id `o_missing`. -/
theorem claim6_witness :
    cancelOrder okCancelEnv cancelledStore "o_missing" =
      { httpStatus := 404, store := cancelledStore, body := none,
        published := [] } :=
  claim6_cancel_notfound okCancelEnv cancelledStore "o_missing" rfl rfl

/-- A create environment whose live user check fails. -/
def failCreateEnv : CreateEnv :=
  { live := .err "CIRCUIT_OPEN", amqpConnected := true,
    publishThrows := false, dbOk := true, now := 7 }

/-- A valid request body for the unknown user `u9`. -/
def u9Req : OrderReq :=
  { userId := .vStr "u9", items := .vArr [.vObj], total := .vNum 150 }

/-- C7: when a valid creation request is rejected because the live check
failed and the user is absent from the cache, the response is 503, the store
is unchanged, no order is persisted, and nothing is published. -/
theorem claim7_reject_no_side_effects (env : CreateEnv) (cache : Cache)
    (store : Store) (req : OrderReq) (newId : String) (msg : String)
    (hvalid : (req.userId.truthy && req.items.isArray && req.total.isNumber) = true)
    (hlive : env.live = .err msg)
    (hmiss : cacheHasVal cache req.userId = false) :
    createOrder env cache store req newId =
      { httpStatus := 503, breakerFired := true, store := store,
        created := none, published := [] } := by
  unfold createOrder
  rw [if_neg (by simp [hvalid])]
  have hv : validateUser env.live cache req.userId =
      .reject 503
        "users-service indisponível e usuário não encontrado no cache" := by
    rw [hlive]
    unfold validateUser
    simp [hmiss]
  rw [hv]

/-- Witness for C7 at the spec's scenario: `u9` with total 150, live check
down, empty cache. -/
theorem claim7_witness :
    createOrder failCreateEnv emptyCache emptyStore u9Req "o_2" =
      { httpStatus := 503, breakerFired := true, store := emptyStore,
        created := none, published := [] } :=
  claim7_reject_no_side_effects failCreateEnv emptyCache emptyStore u9Req
    "o_2" "CIRCUIT_OPEN" rfl rfl rfl

theorem createOrder_cases (env : CreateEnv) (cache : Cache) (store : Store)
    (req : OrderReq) (newId : String) :
    ((createOrder env cache store req newId).created = none
      ∧ (createOrder env cache store req newId).published = []
      ∧ (createOrder env cache store req newId).store = store)
    ∨ (∃ o : Order,
        (createOrder env cache store req newId).created = some o
        ∧ (createOrder env cache store req newId).httpStatus = 201
        ∧ (createOrder env cache store req newId).store = storeSet store newId o
        ∧ (createOrder env cache store req newId).published =
            (if env.amqpConnected && !env.publishThrows then
              [BusEvent.orderCreated o]
            else [])) := by
  unfold createOrder
  split
  · left; exact ⟨rfl, rfl, rfl⟩
  · split
    · left; exact ⟨rfl, rfl, rfl⟩
    · split
      · right
        refine ⟨_, rfl, rfl, rfl, rfl⟩
      · left; exact ⟨rfl, rfl, rfl⟩

/-- C8: for both create and cancel, an event reaches the broker only when the
corresponding state change has already been recorded, and a publish throw
after the mutation neither rolls the mutation back nor fails the caller: the
operation still returns success with the mutated order, merely publishing
nothing. -/
theorem claim8_publish_after_persist (cenv : CreateEnv) (cache : Cache)
    (store : Store) (req : OrderReq) (newId : String)
    (xenv : CancelEnv) (store2 : Store) (orderId : String) :
    ((createOrder cenv cache store req newId).published ≠ [] →
      (createOrder cenv cache store req newId).httpStatus = 201
        ∧ ((createOrder cenv cache store req newId).store newId).isSome = true
        ∧ (createOrder cenv cache store req newId).created =
            (createOrder cenv cache store req newId).store newId)
    ∧ (cenv.publishThrows = true →
        (req.userId.truthy && req.items.isArray && req.total.isNumber) = true →
        validateUser cenv.live cache req.userId = .accept →
        (cenv.dbOk && (store newId).isNone) = true →
        (createOrder cenv cache store req newId).httpStatus = 201
          ∧ (createOrder cenv cache store req newId).created.isSome = true
          ∧ (createOrder cenv cache store req newId).published = [])
    ∧ ((cancelOrder xenv store2 orderId).published ≠ [] →
        (cancelOrder xenv store2 orderId).httpStatus = 200
          ∧ ((cancelOrder xenv store2 orderId).store orderId).map Order.status =
              some "cancelled")
    ∧ (xenv.publishThrows = true → xenv.dbOk = true →
        (store2 orderId).isSome = true →
        (cancelOrder xenv store2 orderId).httpStatus = 200
          ∧ (cancelOrder xenv store2 orderId).body.isSome = true
          ∧ (cancelOrder xenv store2 orderId).published = []) := by
  refine ⟨?_, ?_, ?_, ?_⟩
  · intro hpub
    rcases createOrder_cases cenv cache store req newId with
      ⟨_, hemp, _⟩ | ⟨o, hc, hs, hst, _⟩
    · exact absurd hemp hpub
    · refine ⟨hs, ?_, ?_⟩
      · rw [hst]
        simp [storeSet]
      · rw [hc, hst]
        simp [storeSet]
  · intro hthrow hvalid hverd hdb
    unfold createOrder
    rw [if_neg (by simp [hvalid]), hverd, hdb]
    simp [hthrow]
  · intro hpub
    unfold cancelOrder at hpub ⊢
    split at hpub
    · rename_i hdb
      rw [if_pos hdb]
      cases hso : store2 orderId with
      | none =>
        rw [hso] at hpub
        simp at hpub
      | some o =>
        refine ⟨rfl, ?_⟩
        simp [storeSet]
    · simp at hpub
  · intro hthrow hdb hsome
    unfold cancelOrder
    rw [hdb]
    cases hso : store2 orderId with
    | none =>
      rw [hso] at hsome
      simp at hsome
    | some o => simp [hthrow]

/-- A create environment whose publish call throws. -/
def throwCreateEnv : CreateEnv :=
  { live := .ok, amqpConnected := true, publishThrows := true, dbOk := true,
    now := 7 }

/-- A cancel environment whose publish call throws. -/
def throwCancelEnv : CancelEnv :=
  { amqpConnected := true, publishThrows := true, dbOk := true, now := 9 }

/-- Witness for C8: a successful create and cancel whose publications imply
the recorded state, and a create and cancel under a throwing publish that
still succeed with the mutation kept and nothing published. -/
theorem claim8_witness :
    ((createOrder okCreateEnv sampleCache emptyStore u9Req "o_3").httpStatus = 201
      ∧ ((createOrder okCreateEnv sampleCache emptyStore u9Req "o_3").store
          "o_3").isSome = true
      ∧ (createOrder okCreateEnv sampleCache emptyStore u9Req "o_3").created =
          (createOrder okCreateEnv sampleCache emptyStore u9Req "o_3").store "o_3")
    ∧ ((createOrder throwCreateEnv sampleCache emptyStore u9Req "o_4").httpStatus = 201
      ∧ (createOrder throwCreateEnv sampleCache emptyStore u9Req "o_4").created.isSome = true
      ∧ (createOrder throwCreateEnv sampleCache emptyStore u9Req "o_4").published = [])
    ∧ ((cancelOrder okCancelEnv cancelledStore "o_c").httpStatus = 200
      ∧ ((cancelOrder okCancelEnv cancelledStore "o_c").store "o_c").map
          Order.status = some "cancelled")
    ∧ ((cancelOrder throwCancelEnv cancelledStore "o_c").httpStatus = 200
      ∧ (cancelOrder throwCancelEnv cancelledStore "o_c").body.isSome = true
      ∧ (cancelOrder throwCancelEnv cancelledStore "o_c").published = []) :=
  ⟨(claim8_publish_after_persist okCreateEnv sampleCache emptyStore u9Req
      "o_3" okCancelEnv cancelledStore "o_c").1 (fun hx => nomatch hx),
   (claim8_publish_after_persist throwCreateEnv sampleCache emptyStore u9Req
      "o_4" okCancelEnv cancelledStore "o_c").2.1 rfl rfl rfl rfl,
   (claim8_publish_after_persist okCreateEnv sampleCache emptyStore u9Req
      "o_3" okCancelEnv cancelledStore "o_c").2.2.1 (fun hx => nomatch hx),
   (claim8_publish_after_persist okCreateEnv sampleCache emptyStore u9Req
      "o_3" throwCancelEnv cancelledStore "o_c").2.2.2 rfl rfl rfl⟩
